import Mathlib

/-!
Shallow embedding of `src/auth/services/auth.service.ts` (NexaFx backend).

The collaborators of the service (TypeORM repositories, bcrypt, the JWT service,
ethers signature recovery, the mailer and the random sources) are embedded as
explicit state (lists of rows), function parameters and extra arguments:

* the `User` repository / `UserService` become a `List User` threaded through
  the operations;
* the `Otp` repository becomes a `List OtpRecord`;
* `Date.now()` becomes a `now : Nat` argument (milliseconds);
* `crypto.randomInt(lo, hi)` becomes `randomInt lo hi r` for a random draw
  `r : Nat` (the Node `randomInt` function is uniform on `[lo, hi)`, upper bound
  exclusive);
* `crypto.randomUUID()` becomes a `freshNonce : String` argument;
* `bcrypt` comparison becomes a `compare : String → String → Bool` parameter;
* `ethers.utils.verifyMessage` becomes a
  `recoverAddress : String → String → Option String` parameter (`none` models
  the throw on a malformed signature);
* the JWT service keeps tokens abstract: a signed token records its payload,
  issue time, lifetime and signing secret, and verification checks the secret
  and the expiry clock, exactly the observable behaviour `jwtService.sign` /
  `jwtService.verify` provide.

NestJS exceptions are embedded as the `AuthError` kinds the service can raise
(`ConflictException`, `UnauthorizedException`, `NotFoundException`,
`InternalServerErrorException`); a thrown JS value is either such an
`HttpException` or some other error (`Thrown.other`), which is what the
`instanceof HttpException` re-throw filter in `reuestOtp` inspects.
-/

namespace NexaFx

/-- The `User` entity: the fields `auth.service.ts` reads or writes.
`id` is stored as a string (TypeORM id column compared against
`userId.toString()`). `password` holds the stored hash. -/
structure User where
  id : String
  email : String
  password : String
  walletAddress : Option String := none
  walletNonce : String
deriving Repr, DecidableEq

/-- The `Otp` entity: the row `reuestOtp` saves and `verifyOtp` queries.
`expiresAt` is the epoch time in milliseconds (`Date.getTime()`). -/
structure OtpRecord where
  email : String
  code : String
  expiresAt : Nat
deriving Repr, DecidableEq

/-- The NestJS `HttpException` subclasses available to the service. -/
inductive AuthError where
  | conflict (msg : String)
  | unauthorized (msg : String)
  | notFound (msg : String)
  | internalError (msg : String)
deriving Repr, DecidableEq

/-- Error kind, disregarding the message: the `HttpException` class
(hence HTTP status) an error maps to. -/
inductive ErrKind where
  | conflict
  | unauthorized
  | notFound
  | internalError
deriving Repr, DecidableEq

/-- The class of an error. -/
def AuthError.kind : AuthError → ErrKind
  | .conflict _ => .conflict
  | .unauthorized _ => .unauthorized
  | .notFound _ => .notFound
  | .internalError _ => .internalError

/-- A thrown JS value: either a NestJS `HttpException` or any other error
(e.g. one raised by the mailer or the database driver). -/
inductive Thrown where
  | http (e : AuthError)
  | other (msg : String)
deriving Repr, DecidableEq

/-- Embeds `usersService.findOne(email)`: look up an identity by email. -/
def findByEmail (users : List User) (email : String) : Option User :=
  users.find? fun u => u.email == email

/-- Embeds `userRepo.findOne({ where: { id } })`: look up an identity by id. -/
def findById (users : List User) (id : String) : Option User :=
  users.find? fun u => u.id == id

/-- Embeds `userRepo.save(user)`: update the row whose id matches. -/
def saveUser (users : List User) (u : User) : List User :=
  users.map fun x => if x.id == u.id then u else x

/-- Embeds `validateUser(email, password)`: look the user up, compare the password
against the stored hash, return the user on success and throw
`UnauthorizedException("Invalid credentials")` otherwise. -/
def validateUser (users : List User) (compare : String → String → Bool)
    (email password : String) : Except AuthError User :=
  match findByEmail users email with
  | some user =>
      if compare password user.password then .ok user
      else .error (.unauthorized "Invalid credentials")
  | none => .error (.unauthorized "Invalid credentials")

/-- Embeds `.toLowerCase()` on an address string (ASCII case folding). -/
def lowercase (s : String) : String := ⟨s.data.map Char.toLower⟩

/-- The challenge string `linkWallet` builds from the stored nonce. -/
def mkChallenge (nonce : String) : String :=
  "Link wallet with nonce: " ++ nonce

/-- Embeds `linkWallet(userId, walletAddress, signature)`. Returns the updated user
store together with the result: the saved user on success, or the
`UnauthorizedException` thrown ("User not found", "Invalid signature" when
`ethers.utils.verifyMessage` throws, "Signature verification failed" when the
recovered address mismatches). The nonce is rotated to `freshNonce`
(`crypto.randomUUID()`) only on the success path, just before the save. -/
def linkWallet (users : List User)
    (recoverAddress : String → String → Option String)
    (freshNonce : String)
    (userId : Nat) (walletAddress signature : String) :
    List User × Except AuthError User :=
  match findById users (toString userId) with
  | none => (users, .error (.unauthorized "User not found"))
  | some user =>
    match recoverAddress (mkChallenge user.walletNonce) signature with
    | none => (users, .error (.unauthorized "Invalid signature"))
    | some recovered =>
      if lowercase recovered ≠ lowercase walletAddress then
        (users, .error (.unauthorized "Signature verification failed"))
      else
        let updated := { user with
          walletAddress := some walletAddress, walletNonce := freshNonce }
        (saveUser users updated, .ok updated)

/-- JWT payload built by `login`: `{ email: user.email, sub: user.id }`. -/
structure TokenPayload where
  email : String
  sub : String
deriving Repr, DecidableEq

/-- A token produced by `jwtService.sign(payload, { expiresIn })`: its claims,
issue time (`iat`, ms), lifetime (`ttl`, ms) and the signing secret. -/
structure SignedToken where
  payload : TokenPayload
  iat : Nat
  ttl : Nat
  secret : String
deriving Repr, DecidableEq

/-- Failure modes of `jwtService.verify`. -/
inductive TokenError where
  | expired
  | badSignature
deriving Repr, DecidableEq

/-- Embeds `jwtService.sign(payload, { expiresIn })` at time `now`. -/
def sign (secret : String) (payload : TokenPayload) (expiresIn now : Nat) :
    SignedToken :=
  { payload := payload, iat := now, ttl := expiresIn, secret := secret }

/-- Embeds `jwtService.verify(token)` at time `now`: signature (secret) check, then
expiry check (a token is rejected once `now` reaches `iat + ttl`). -/
def verify (secret : String) (t : SignedToken) (now : Nat) :
    Except TokenError TokenPayload :=
  if t.secret ≠ secret then .error .badSignature
  else if t.iat + t.ttl ≤ now then .error .expired
  else .ok t.payload

/-- The `{ accessToken, refreshToken }` pair `login` returns. -/
structure Session where
  accessToken : SignedToken
  refreshToken : SignedToken
deriving Repr, DecidableEq

/-- The duration `expiresIn: "15m"` in milliseconds. -/
def accessTtlMs : Nat := 15 * 60 * 1000

/-- The duration `expiresIn: "7d"` in milliseconds. -/
def refreshTtlMs : Nat := 7 * 24 * 60 * 60 * 1000

/-- Embeds `login(user)`: sign `{ email, sub }` twice, 15 minutes for the access
token and 7 days for the refresh token. -/
def login (secret : String) (user : User) (now : Nat) : Session :=
  { accessToken :=
      sign secret { email := user.email, sub := user.id } accessTtlMs now,
    refreshToken :=
      sign secret { email := user.email, sub := user.id } refreshTtlMs now }

/-- Embeds `refreshToken(token)`: verify the token, re-look the user up by the
decoded email, and reissue both tokens via `login`; every failure inside the
`try` (bad/expired token, or the inner `UnauthorizedException` with message
"Invalid refresh token" for a deleted user) is caught and surfaces as
`UnauthorizedException("Invalid or expired refresh token")`. -/
def refreshToken (users : List User) (secret : String) (token : SignedToken)
    (now : Nat) : Except AuthError Session :=
  match verify secret token now with
  | .error _ => .error (.unauthorized "Invalid or expired refresh token")
  | .ok decoded =>
    match findByEmail users decoded.email with
    | none => .error (.unauthorized "Invalid or expired refresh token")
    | some user => .ok (login secret user now)

/-- The Node function `crypto.randomInt(lo, hi)`: uniform on `[lo, hi)` (upper bound
exclusive), embedded as a function of the random draw `r`. -/
def randomInt (lo hi r : Nat) : Nat := lo + r % (hi - lo)

/-- Embeds `generateOtp()`: `String(randomInt(100000, 999999))`. -/
def generateOtp (r : Nat) : String := toString (randomInt 100000 999999 r)

/-- The OTP lifetime `reuestOtp` uses: `5 * 60 * 1000` ms. -/
def otpTtlMs : Nat := 5 * 60 * 1000

/-- Embeds `otpRepo.findOneBy({ email, code })`. -/
def findOneBy (otps : List OtpRecord) (email code : String) :
    Option OtpRecord :=
  otps.find? fun o => o.email == email && o.code == code

/-- Embeds `otpRepo.delete({ email, code })`: remove every matching row. -/
def deleteOtp (otps : List OtpRecord) (email code : String) :
    List OtpRecord :=
  otps.filter fun o => !(o.email == email && o.code == code)

/-- Embeds `verifyOtp(email, code)` at time `now`: returns the boolean result and
the OTP store after the call. No match → `false`, store untouched; match
with `expiresAt < now` → delete, `false`; live match → delete (one-time
use), `true`. -/
def verifyOtp (otps : List OtpRecord) (email code : String) (now : Nat) :
    Bool × List OtpRecord :=
  match findOneBy otps email code with
  | none => (false, otps)
  | some record =>
    if record.expiresAt < now then
      (false, deleteOtp otps email code)
    else
      (true, deleteOtp otps email code)

/-- The combined persistent state `reuestOtp` touches. -/
structure AuthState where
  users : List User
  otps : List OtpRecord
deriving Repr, DecidableEq

/-- The body of the `try` block of `reuestOtp`: look the user up (throw
`ConflictException("invalid user does not exist")` if absent), generate a
code, save the row with `expiresAt = now + 5 minutes`, then send the email.
`emailFailure = some msg` models `sendOtpEmail` throwing a (non-HTTP) error
after the row was already persisted. -/
def reuestOtpTry (st : AuthState) (email : String) (r now : Nat)
    (emailFailure : Option String) : AuthState × Except Thrown Unit :=
  match findByEmail st.users email with
  | none => (st, .error (.http (.conflict "invalid user does not exist")))
  | some _ =>
    let code := generateOtp r
    let st2 := { st with
      otps := st.otps ++ [{ email := email, code := code,
                            expiresAt := now + otpTtlMs }] }
    match emailFailure with
    | some msg => (st2, .error (.other msg))
    | none => (st2, .ok ())

/-- The `catch` handler of `reuestOtp`: re-throw an `HttpException` unchanged, wrap
anything else into
`InternalServerErrorException("Failed to generate and send OTP")`. -/
def rethrowKnown (res : Except Thrown Unit) : Except AuthError Unit :=
  match res with
  | .ok _ => .ok ()
  | .error (.http e) => .error e
  | .error (.other _) =>
      .error (.internalError "Failed to generate and send OTP")

/-- Embeds `reuestOtp(email)`: the `try` body guarded by the `catch` above. The
state component carries whatever writes happened before any throw. -/
def reuestOtp (st : AuthState) (email : String) (r now : Nat)
    (emailFailure : Option String) : AuthState × Except AuthError Unit :=
  let step := reuestOtpTry st email r now emailFailure
  (step.1, rethrowKnown step.2)

/-! ### Helper lemmas about the OTP store -/

/-- After `otpRepo.delete({ email, code })`, a lookup of the same pair finds
nothing. -/
theorem findOneBy_deleteOtp (otps : List OtpRecord) (email code : String) :
    findOneBy (deleteOtp otps email code) email code = none := by
  unfold findOneBy deleteOtp
  rw [List.find?_eq_none]
  intro x hx
  have h2 := (List.mem_filter.1 hx).2
  rw [Bool.not_eq_true'] at h2
  simp [h2]

/-- Running `verifyOtp` on a store with no matching row returns `false` and leaves
the store untouched. -/
theorem verifyOtp_of_findOneBy_none (otps : List OtpRecord)
    (email code : String) (now : Nat)
    (h : findOneBy otps email code = none) :
    verifyOtp otps email code now = (false, otps) := by
  unfold verifyOtp
  rw [h]

/-- When a matching row exists, both branches of `verifyOtp` delete it. -/
theorem verifyOtp_snd_of_found (otps : List OtpRecord) (email code : String)
    (now : Nat) (record : OtpRecord)
    (h : findOneBy otps email code = some record) :
    (verifyOtp otps email code now).2 = deleteOtp otps email code := by
  simp only [verifyOtp, h]
  split <;> rfl

/-- C1: if `verifyOtp(email, code)` returns true, the matching `OtpRecord`
is deleted in the same operation (a second lookup finds nothing), and a
second `verifyOtp` call with the same email and code, at any later time and
with no new record created in between, returns false. -/
theorem otp_one_time_use (otps : List OtpRecord) (email code : String)
    (now now2 : Nat) (h : (verifyOtp otps email code now).1 = true) :
    findOneBy (verifyOtp otps email code now).2 email code = none ∧
    (verifyOtp (verifyOtp otps email code now).2 email code now2).1 = false := by
  cases hf : findOneBy otps email code with
  | none =>
    rw [verifyOtp_of_findOneBy_none otps email code now hf] at h
    cases h
  | some record =>
    have hsnd := verifyOtp_snd_of_found otps email code now record hf
    rw [hsnd]
    have hnone := findOneBy_deleteOtp otps email code
    exact ⟨hnone, by rw [verifyOtp_of_findOneBy_none _ _ _ now2 hnone]⟩

/-- A live OTP row used by the C1 witness. -/
def otpA : OtpRecord := { email := "a@x.com", code := "123456", expiresAt := 1000 }

/-- C1 witness: a concrete successful verification at time 500 deletes the
row, and re-verifying at time 600 returns false. -/
theorem otp_one_time_use_witness :
    findOneBy (verifyOtp [otpA] "a@x.com" "123456" 500).2
      "a@x.com" "123456" = none ∧
    (verifyOtp (verifyOtp [otpA] "a@x.com" "123456" 500).2
      "a@x.com" "123456" 600).1 = false :=
  otp_one_time_use [otpA] "a@x.com" "123456" 500 600 (by decide)

/-- C3 counterexample: the code tests `expiresAt < now` strictly, so at
exactly `now = expiresAt` the outcome required by the claim (false) does not
happen: verification succeeds. -/
theorem otp_expiry_boundary_cex :
    (100 : Nat) ≥ 100 ∧
    (verifyOtp [{ email := "a@x.com", code := "123456", expiresAt := 100 }]
        "a@x.com" "123456" 100).1 = true := by
  exact ⟨le_refl _, by decide⟩

/-- C3 amended: for a stored matching record, if `now` is strictly greater
than `expiresAt` then `verifyOtp` deletes the record and returns false, and
the code is not re-validatable afterward; at exactly `now = expiresAt` (and
any earlier time) the code still verifies as true. -/
theorem otp_expiry (otps : List OtpRecord) (email code : String)
    (now now2 : Nat) (record : OtpRecord)
    (hf : findOneBy otps email code = some record) :
    (record.expiresAt < now →
      (verifyOtp otps email code now).1 = false ∧
      findOneBy (verifyOtp otps email code now).2 email code = none ∧
      (verifyOtp (verifyOtp otps email code now).2 email code now2).1 = false) ∧
    (now ≤ record.expiresAt → (verifyOtp otps email code now).1 = true) := by
  constructor
  · intro hexp
    have hsnd := verifyOtp_snd_of_found otps email code now record hf
    have hnone := findOneBy_deleteOtp otps email code
    refine ⟨?_, hsnd ▸ hnone, ?_⟩
    · unfold verifyOtp
      rw [hf]
      simp [hexp]
    · rw [hsnd]
      rw [verifyOtp_of_findOneBy_none _ _ _ now2 hnone]
  · intro hle
    unfold verifyOtp
    rw [hf]
    simp [Nat.not_lt.2 hle]

/-- An expired OTP row (expiry 100) used by the C3 witness. -/
def otpB : OtpRecord := { email := "a@x.com", code := "111111", expiresAt := 100 }

/-- C3 witness: verifying the expired row at time 200 returns false, removes
it, and re-verifying at time 300 still returns false. -/
theorem otp_expiry_witness :
    (verifyOtp [otpB] "a@x.com" "111111" 200).1 = false ∧
    findOneBy (verifyOtp [otpB] "a@x.com" "111111" 200).2
      "a@x.com" "111111" = none ∧
    (verifyOtp (verifyOtp [otpB] "a@x.com" "111111" 200).2
      "a@x.com" "111111" 300).1 = false :=
  (otp_expiry [otpB] "a@x.com" "111111" 200 300 otpB (by decide)).1 (by decide)

/-- C5 counterexample: `crypto.randomInt(100000, 999999)` has an exclusive
upper bound, so the draw 999999 — which the claim requires to be attainable —
is never produced. -/
theorem generateOtp_range_cex :
    ¬ ∃ r : Nat, randomInt 100000 999999 r = 999999 := by
  rintro ⟨r, hr⟩
  unfold randomInt at hr
  have h : r % (999999 - 100000) < 999999 - 100000 := Nat.mod_lt _ (by norm_num)
  omega

/-- C5 amended: every generated code is the decimal string of a number drawn
uniformly from 100000 to 999998 inclusive (999999 is excluded by the
exclusive upper bound of `randomInt`); both endpoints are attainable, the
string never exceeds 6 characters, and being at least 100000 it has no
leading-zero truncation. -/
theorem generateOtp_range (r : Nat) :
    100000 ≤ randomInt 100000 999999 r ∧
    randomInt 100000 999999 r ≤ 999998 ∧
    generateOtp r = toString (randomInt 100000 999999 r) ∧
    (generateOtp r).length ≤ 6 ∧
    randomInt 100000 999999 0 = 100000 ∧
    randomInt 100000 999999 899998 = 999998 := by
  have hlt : r % (999999 - 100000) < 999999 - 100000 := Nat.mod_lt _ (by norm_num)
  have h6 : (10 : Nat) ^ 6 = 1000000 := by norm_num
  refine ⟨?_, ?_, rfl, ?_, by decide, ?_⟩
  · unfold randomInt
    omega
  · unfold randomInt
    omega
  · show (toString (randomInt 100000 999999 r)).length ≤ 6
    have hb : randomInt 100000 999999 r < 10 ^ 6 := by
      unfold randomInt
      omega
    exact Nat.repr_length _ 6 (by norm_num) hb
  · unfold randomInt
    omega

/-- C8: `validateUser` returns the identity iff an identity with that email
exists and the stored hash matches the password; in every other case it
fails with `UnauthorizedException("Invalid credentials")` and never with any
other exception kind. -/
theorem validateUser_spec (users : List User)
    (compare : String → String → Bool) (email password : String) :
    (∀ u, validateUser users compare email password = .ok u ↔
      (findByEmail users email = some u ∧ compare password u.password = true)) ∧
    (∀ e, validateUser users compare email password = .error e →
      e = .unauthorized "Invalid credentials") := by
  unfold validateUser
  constructor
  · intro u
    constructor
    · intro h
      split at h
      next user heq =>
        split at h
        next hc =>
          injection h with h
          subst h
          exact ⟨heq, hc⟩
        next hc => cases h
      next heq => cases h
    · rintro ⟨hf, hc⟩
      rw [hf]
      simp [hc]
  · intro e he
    split at he
    next user heq =>
      split at he
      next hc => cases he
      next hc =>
        injection he with h
        exact h.symm
    next heq =>
      injection he with h
      exact h.symm

/-- A registered identity used by several witnesses. -/
def userA : User :=
  { id := "1", email := "b@x.com", password := "hash1", walletNonce := "n0" }

/-- Literal string equality, a concrete stand-in for the bcrypt compare
collaborator in witnesses. -/
def plainCompare : String → String → Bool := fun p h => p == h

/-- C8 witness: with the store holding `userA` and a compare that accepts
`"hash1"`, `validateUser` returns `userA` for the right password. -/
theorem validateUser_spec_witness :
    validateUser [userA] plainCompare "b@x.com" "hash1" = .ok userA :=
  ((validateUser_spec [userA] plainCompare "b@x.com" "hash1").1 userA).2
    ⟨by decide, by decide⟩

/-- C4 counterexample: for an absent email, `validateUser` fails with
`Unauthorized "Invalid credentials"`, but `reuestOtp` fails with
`Conflict "invalid user does not exist"` — a different error kind whose
message explicitly discloses that the email does not exist, so the two
operations do not fail identically in shape. -/
theorem enumeration_resistance_cex :
    (reuestOtp { users := [], otps := [] } "a@x.com" 0 0 none).2 =
      .error (.conflict "invalid user does not exist") ∧
    validateUser [] plainCompare "a@x.com" "pw" =
      .error (.unauthorized "Invalid credentials") ∧
    (AuthError.conflict "invalid user does not exist").kind ≠
      (AuthError.unauthorized "Invalid credentials").kind := by
  exact ⟨rfl, rfl, by decide⟩

/-- C4 amended: `validateUser` is enumeration-resistant — it fails with the
identical error (`Unauthorized "Invalid credentials"`) whether the email is
absent or the password is wrong; `reuestOtp`, however, fails for an absent
email with a `Conflict` error whose message discloses that the user does not
exist, so the OTP request path does reveal email existence. -/
theorem enumeration_resistance (users : List User)
    (compare : String → String → Bool)
    (email password email2 password2 : String) (u : User) (st : AuthState)
    (r now : Nat) (emailFailure : Option String)
    (h1 : findByEmail users email = none)
    (h2 : findByEmail users email2 = some u)
    (h3 : compare password2 u.password = false)
    (h4 : findByEmail st.users email = none) :
    validateUser users compare email password =
      .error (.unauthorized "Invalid credentials") ∧
    validateUser users compare email2 password2 =
      .error (.unauthorized "Invalid credentials") ∧
    (reuestOtp st email r now emailFailure).2 =
      .error (.conflict "invalid user does not exist") := by
  refine ⟨?_, ?_, ?_⟩
  · unfold validateUser
    rw [h1]
  · unfold validateUser
    rw [h2]
    simp [h3]
  · unfold reuestOtp reuestOtpTry
    rw [h4]
    rfl

/-- C4 amended witness: concrete store `[userA]`; the absent email
`"a@x.com"` and the wrong password for `"b@x.com"` produce the identical
`validateUser` failure, while the OTP request discloses non-existence. -/
theorem enumeration_resistance_witness :
    validateUser [userA] plainCompare "a@x.com" "pw" =
      .error (.unauthorized "Invalid credentials") ∧
    validateUser [userA] plainCompare "b@x.com" "wrong" =
      .error (.unauthorized "Invalid credentials") ∧
    (reuestOtp { users := [userA], otps := [] } "a@x.com" 0 0 none).2 =
      .error (.conflict "invalid user does not exist") :=
  enumeration_resistance [userA] plainCompare "a@x.com" "pw" "b@x.com" "wrong"
    userA { users := [userA], otps := [] } 0 0 none
    (by decide) (by decide) (by decide) (by decide)

/-- C6 counterexample: for an absent email, `reuestOtp` throws
`ConflictException("invalid user does not exist")` — the `Conflict` kind,
not a `NotFound` kind as the claim states. -/
theorem requestOtp_kind_cex :
    (reuestOtp { users := [], otps := [] } "a@x.com" 0 0 none).2 =
      .error (.conflict "invalid user does not exist") ∧
    (AuthError.conflict "invalid user does not exist").kind ≠
      ErrKind.notFound := by
  exact ⟨rfl, by decide⟩

/-- C6 amended: for an email with no identity, `reuestOtp` fails with the
`Conflict` kind (message "invalid user does not exist"), and that
classification propagates unchanged to the caller: the inner `try` body
throws it as an `HttpException` and the outer catch re-throws it as-is
rather than masking it as the generic internal error. -/
theorem requestOtp_conflict_propagates (st : AuthState) (email : String)
    (r now : Nat) (emailFailure : Option String)
    (h : findByEmail st.users email = none) :
    (reuestOtpTry st email r now emailFailure).2 =
      .error (.http (.conflict "invalid user does not exist")) ∧
    (reuestOtp st email r now emailFailure).2 =
      .error (.conflict "invalid user does not exist") ∧
    ((reuestOtp st email r now emailFailure).2 =
      .error (.internalError "Failed to generate and send OTP") → False) := by
  unfold reuestOtp reuestOtpTry
  rw [h]
  exact ⟨rfl, rfl, fun hc => by cases hc⟩

/-- C6 witness: concrete absent email, the conflict error propagates
unchanged. -/
theorem requestOtp_conflict_propagates_witness :
    (reuestOtpTry { users := [userA], otps := [] } "a@x.com" 0 0 none).2 =
      .error (.http (.conflict "invalid user does not exist")) ∧
    (reuestOtp { users := [userA], otps := [] } "a@x.com" 0 0 none).2 =
      .error (.conflict "invalid user does not exist") ∧
    ((reuestOtp { users := [userA], otps := [] } "a@x.com" 0 0 none).2 =
      .error (.internalError "Failed to generate and send OTP") → False) :=
  requestOtp_conflict_propagates { users := [userA], otps := [] }
    "a@x.com" 0 0 none (by decide)

/-- C7: verifying the access token issued by `login` recovers claims whose
`sub` is the id of the identity and whose `email` is the email of the identity while
the clock is within the 15-minute TTL, and fails with `Expired` once the
clock reaches the TTL; the TTL of the access token is 15 minutes and the TTL of
the refresh token is 7 days. -/
theorem token_round_trip (secret : String) (user : User) (now now2 : Nat) :
    (login secret user now).accessToken.ttl = 15 * 60 * 1000 ∧
    (login secret user now).refreshToken.ttl = 7 * 24 * 60 * 60 * 1000 ∧
    (now2 < now + accessTtlMs →
      verify secret (login secret user now).accessToken now2 =
        .ok { email := user.email, sub := user.id }) ∧
    (now + accessTtlMs ≤ now2 →
      verify secret (login secret user now).accessToken now2 =
        .error .expired) := by
  refine ⟨rfl, rfl, ?_, ?_⟩
  · intro hlt
    unfold verify login sign
    rw [if_neg (by simp), if_neg (by simpa using Nat.not_le.2 hlt)]
  · intro hle
    unfold verify login sign
    rw [if_neg (by simp), if_pos (by simpa using hle)]

/-- C7 witness: a token issued at time 0 for `userA` verifies to the right
claims at time 1, and is `Expired` at 8 days. -/
theorem token_round_trip_witness :
    verify "s" (login "s" userA 0).accessToken 1 =
      .ok { email := "b@x.com", sub := "1" } ∧
    verify "s" (login "s" userA 0).accessToken 691200000 =
      .error .expired :=
  ⟨(token_round_trip "s" userA 0 1).2.2.1 (by decide),
   (token_round_trip "s" userA 0 691200000).2.2.2 (by decide)⟩

/-! ### Wallet linking -/

/-- After `userRepo.save(u2)`, looking the same id up returns the saved row
(when a row with that id was found before and `u2` keeps its id). -/
theorem findById_saveUser :
    ∀ (users : List User) (u u2 : User) (idStr : String),
      u2.id = u.id → findById users idStr = some u →
      findById (saveUser users u2) idStr = some u2 := by
  intro users
  induction users with
  | nil =>
    intro u u2 idStr hid h
    simp [findById] at h
  | cons x xs ih =>
    intro u u2 idStr hid h
    simp only [findById] at h ⊢
    simp only [saveUser, List.map_cons]
    by_cases hx : (x.id == idStr) = true
    · rw [List.find?_cons_of_pos (p := fun v : User => v.id == idStr) _ hx] at h
      injection h with h
      subst h
      have hhead : (x.id == u2.id) = true := by
        rw [beq_iff_eq]
        exact hid.symm
      have hmatch : (u2.id == idStr) = true := by
        rw [beq_iff_eq, hid]
        exact beq_iff_eq.mp hx
      rw [if_pos hhead]
      exact List.find?_cons_of_pos (p := fun v : User => v.id == idStr) _ hmatch
    · rw [List.find?_cons_of_neg (p := fun v : User => v.id == idStr) _ hx] at h
      have hu : (u.id == idStr) = true := List.find?_some (p := fun v : User => v.id == idStr) h
      by_cases hxu : (x.id == u2.id) = true
      · exfalso
        apply hx
        rw [beq_iff_eq] at hxu hu ⊢
        rw [hxu, hid, hu]
      · rw [if_neg hxu]
        rw [List.find?_cons_of_neg (p := fun v : User => v.id == idStr) _ hx]
        exact ih u u2 idStr hid h

/-- Inversion of a successful `linkWallet`: a row with the id was found, the
signature recovered an address matching the claimed one case-insensitively,
the returned user is the found row with the claimed address and the fresh
nonce, and the store was updated through `save`. -/
theorem linkWallet_ok_inv (users : List User)
    (recoverAddress : String → String → Option String)
    (freshNonce : String) (userId : Nat) (walletAddress signature : String)
    (u2 : User)
    (h : (linkWallet users recoverAddress freshNonce userId walletAddress
            signature).2 = .ok u2) :
    ∃ u recovered,
      findById users (toString userId) = some u ∧
      recoverAddress (mkChallenge u.walletNonce) signature = some recovered ∧
      lowercase recovered = lowercase walletAddress ∧
      u2 = { u with walletAddress := some walletAddress,
                    walletNonce := freshNonce } ∧
      (linkWallet users recoverAddress freshNonce userId walletAddress
          signature).1 = saveUser users u2 := by
  cases hf : findById users (toString userId) with
  | none =>
    simp only [linkWallet, hf] at h
    exact Except.noConfusion h
  | some u =>
    cases hr : recoverAddress (mkChallenge u.walletNonce) signature with
    | none =>
      simp only [linkWallet, hf, hr] at h
      exact Except.noConfusion h
    | some recovered =>
      simp only [linkWallet, hf, hr] at h
      by_cases hcmp : lowercase recovered ≠ lowercase walletAddress
      · rw [if_pos hcmp] at h
        exact Except.noConfusion h
      · rw [if_neg hcmp] at h
        injection h with h
        refine ⟨u, recovered, rfl, hr, not_not.1 hcmp, h.symm, ?_⟩
        simp only [linkWallet, hf, hr]
        rw [if_neg hcmp, h]

/-- The hypothesis that, for the challenge built from `nonce`, the recovery
collaborator does not produce an address matching `addr` for `signature`
(the cryptographic fact that a signature over one message does not verify
against a different message). -/
def recoverMismatch (recoverAddress : String → String → Option String)
    (nonce signature addr : String) : Prop :=
  ∀ a, recoverAddress (mkChallenge nonce) signature = some a →
    lowercase a ≠ lowercase addr

/-- C2 amended: nonce rotation happens exactly on fully successful link
calls (signature recovery succeeded AND the recovered address matches): the
`walletNonce` field of the saved user is the fresh value, which differs from the
consumed nonce whenever the fresh draw differs, the saved row is what later
lookups see, and replaying the same signed message afterwards fails
(given that the signature does not verify against the new challenge). Calls
that fail with an address mismatch do not rotate the nonce (see the
counterexample). -/
theorem linkWallet_nonce_rotation (users : List User)
    (recoverAddress : String → String → Option String)
    (freshNonce : String) (userId : Nat) (walletAddress signature : String)
    (u2 : User)
    (h : (linkWallet users recoverAddress freshNonce userId walletAddress
            signature).2 = .ok u2) :
    u2.walletNonce = freshNonce ∧
    u2.walletAddress = some walletAddress ∧
    (∀ u, findById users (toString userId) = some u →
      u.walletNonce ≠ freshNonce → u2.walletNonce ≠ u.walletNonce) ∧
    findById (linkWallet users recoverAddress freshNonce userId walletAddress
        signature).1 (toString userId) = some u2 ∧
    (recoverMismatch recoverAddress freshNonce signature walletAddress →
      ∀ freshNonce2, ∃ e,
        (linkWallet (linkWallet users recoverAddress freshNonce userId
            walletAddress signature).1 recoverAddress freshNonce2 userId
            walletAddress signature).2 = .error e) := by
  obtain ⟨u, recovered, hf, hr, hcmp, hu2, hstate⟩ :=
    linkWallet_ok_inv users recoverAddress freshNonce userId walletAddress
      signature u2 h
  have hnonce : u2.walletNonce = freshNonce := by rw [hu2]
  have haddr : u2.walletAddress = some walletAddress := by rw [hu2]
  have hfind2 : findById (linkWallet users recoverAddress freshNonce userId
      walletAddress signature).1 (toString userId) = some u2 := by
    rw [hstate]
    exact findById_saveUser users u u2 (toString userId) (by rw [hu2]) hf
  refine ⟨hnonce, haddr, ?_, hfind2, ?_⟩
  · intro u' hu' hne
    rw [hf] at hu'
    injection hu' with hu'
    subst hu'
    rw [hnonce]
    exact fun hh => hne hh.symm
  · intro hmis freshNonce2
    set st2 := (linkWallet users recoverAddress freshNonce userId
      walletAddress signature).1 with hst2
    cases hr2 : recoverAddress (mkChallenge u2.walletNonce) signature with
    | none =>
      refine ⟨.unauthorized "Invalid signature", ?_⟩
      simp only [linkWallet, hfind2, hr2]
    | some a =>
      have hne : lowercase a ≠ lowercase walletAddress := by
        apply hmis
        rw [← hnonce]
        exact hr2
      refine ⟨.unauthorized "Signature verification failed", ?_⟩
      simp only [linkWallet, hfind2, hr2]
      rw [if_pos hne]

/-- The row `userA` after a successful link of address `0xBBB` with fresh
nonce `n1`. -/
def userA2 : User :=
  { id := "1", email := "b@x.com", password := "hash1",
    walletAddress := some "0xBBB", walletNonce := "n1" }

/-- A recovery collaborator that verifies the signature only against the
challenge built from nonce `n0`, recovering `0xBBB`. -/
def recoverNonce0 : String → String → Option String :=
  fun m _ => if m == mkChallenge "n0" then some "0xBBB" else none

/-- C2 witness: a concrete successful link rotates the nonce of `userA` from
`n0` to `n1`, saves address `0xBBB`, and replaying the same signature
afterwards fails. -/
theorem linkWallet_nonce_rotation_witness :
    userA2.walletNonce = "n1" ∧
    userA2.walletAddress = some "0xBBB" ∧
    (∀ u, findById [userA] (toString 1) = some u →
      u.walletNonce ≠ "n1" → userA2.walletNonce ≠ u.walletNonce) ∧
    findById (linkWallet [userA] recoverNonce0 "n1" 1 "0xBBB" "sig").1
      (toString 1) = some userA2 ∧
    (recoverMismatch recoverNonce0 "n1" "sig" "0xBBB" →
      ∀ freshNonce2, ∃ e,
        (linkWallet (linkWallet [userA] recoverNonce0 "n1" 1 "0xBBB"
            "sig").1 recoverNonce0 freshNonce2 1 "0xBBB" "sig").2 =
          .error e) :=
  linkWallet_nonce_rotation [userA] recoverNonce0 "n1" 1 "0xBBB" "sig"
    userA2 rfl

/-- A recovery collaborator that always recovers the fixed address
`0xAAA`. -/
def recoverConst : String → String → Option String := fun _ _ => some "0xAAA"

/-- C2 counterexample: a call in which signature recovery succeeds but the
recovered address (`0xAAA`) mismatches the claimed one (`0xBBB`) throws
before the nonce-rotation line: the stored identity still carries the very
nonce (`n0`) used to build the challenge, contradicting the claim that every
call reaching successful recovery rotates the nonce. -/
theorem linkWallet_nonce_cex :
    (linkWallet [userA] recoverConst "n1" 1 "0xBBB" "sig").2 =
      .error (.unauthorized "Signature verification failed") ∧
    (linkWallet [userA] recoverConst "n1" 1 "0xBBB" "sig").1 = [userA] ∧
    findById (linkWallet [userA] recoverConst "n1" 1 "0xBBB" "sig").1 "1" =
      some userA ∧
    userA.walletNonce = "n0" :=
  ⟨rfl, rfl, rfl, rfl⟩

/-- C10: every failing `linkWallet` call — user not found, malformed
signature, or recovered-address mismatch — performs no write: the user store
after the call is exactly the store before it. -/
theorem linkWallet_failure_atomic (users : List User)
    (recoverAddress : String → String → Option String)
    (freshNonce : String) (userId : Nat) (walletAddress signature : String)
    (e : AuthError)
    (h : (linkWallet users recoverAddress freshNonce userId walletAddress
            signature).2 = .error e) :
    (linkWallet users recoverAddress freshNonce userId walletAddress
        signature).1 = users := by
  cases hf : findById users (toString userId) with
  | none =>
    simp only [linkWallet, hf]
  | some u =>
    cases hr : recoverAddress (mkChallenge u.walletNonce) signature with
    | none =>
      simp only [linkWallet, hf, hr]
    | some recovered =>
      simp only [linkWallet, hf, hr] at h ⊢
      by_cases hcmp : lowercase recovered ≠ lowercase walletAddress
      · rw [if_pos hcmp]
      · rw [if_neg hcmp] at h
        cases h

/-- C10 witness: the concrete address-mismatch failure leaves the store
untouched. -/
theorem linkWallet_failure_atomic_witness :
    (linkWallet [userA] recoverConst "n2" 1 "0xBBB" "sig").1 = [userA] :=
  linkWallet_failure_atomic [userA] recoverConst "n2" 1 "0xBBB" "sig"
    (.unauthorized "Signature verification failed") rfl

/-! ### Refresh flow -/

/-- Once the clock reaches `iat + ttl`, `refreshToken` fails with the
catch-all `UnauthorizedException`, whatever the secret. -/
theorem refreshToken_expired_aux (users : List User) (secret : String)
    (t : SignedToken) (now : Nat) (hexp : t.iat + t.ttl ≤ now) :
    refreshToken users secret t now =
      .error (.unauthorized "Invalid or expired refresh token") := by
  unfold refreshToken verify
  by_cases hs : t.secret = secret
  · simp [hs, hexp]
  · simp [hs]

/-- C9: `refreshToken` verifies the signature and expiry of the token, re-looks
the identity up by the embedded email and fails if it no longer exists, and
on success reissues both tokens via `login`; a refresh token signed 8 days
ago with the 7-day TTL fails with the `Unauthorized` error and no new tokens
are issued. -/
theorem refreshToken_spec (users : List User) (secret : String)
    (t : SignedToken) (now : Nat) :
    (t.iat + t.ttl ≤ now →
      refreshToken users secret t now =
        .error (.unauthorized "Invalid or expired refresh token")) ∧
    (t.secret ≠ secret →
      refreshToken users secret t now =
        .error (.unauthorized "Invalid or expired refresh token")) ∧
    (t.secret = secret → now < t.iat + t.ttl →
      findByEmail users t.payload.email = none →
      refreshToken users secret t now =
        .error (.unauthorized "Invalid or expired refresh token")) ∧
    (∀ u, t.secret = secret → now < t.iat + t.ttl →
      findByEmail users t.payload.email = some u →
      refreshToken users secret t now = .ok (login secret u now)) ∧
    (t.ttl = refreshTtlMs → now = t.iat + 8 * 24 * 60 * 60 * 1000 →
      refreshToken users secret t now =
        .error (.unauthorized "Invalid or expired refresh token")) := by
  refine ⟨fun hexp => refreshToken_expired_aux users secret t now hexp,
    ?_, ?_, ?_, ?_⟩
  · intro hs
    unfold refreshToken verify
    simp [hs]
  · intro hs hlt hnone
    unfold refreshToken verify
    simp [hs, Nat.not_le.2 hlt, hnone]
  · intro u hs hlt hsome
    unfold refreshToken verify
    simp [hs, Nat.not_le.2 hlt, hsome]
  · intro httl hnow
    apply refreshToken_expired_aux
    rw [httl, hnow]
    unfold refreshTtlMs
    omega

/-- C9 witness: a refresh token issued at time 0 with the 7-day TTL, when
refreshed 8 days later, fails with the `Unauthorized` error. -/
theorem refreshToken_spec_witness :
    refreshToken [userA] "s"
      (sign "s" { email := "b@x.com", sub := "1" } refreshTtlMs 0)
      691200000 =
      .error (.unauthorized "Invalid or expired refresh token") :=
  (refreshToken_spec [userA] "s"
      (sign "s" { email := "b@x.com", sub := "1" } refreshTtlMs 0)
      691200000).2.2.2.2 rfl (by decide)

end NexaFx
